import Mathlib

/-!
Verification of the receipt ingestion and extraction pipeline of the
trans-tally repository.

The embedding covers:
* the Receipt Record data model (table `receipts`: `file_url`, `file_name`,
  `processing_status`, `extracted_data`);
* the Extraction Worker (`supabase/functions/process-receipt/index.ts`),
  modelled as `extract`, a function from an authentication result, a request
  body, the environment (randomness drawn by `Math.random`, the current
  calendar date) and the database state to a response, a new database state
  and the list of issued update calls;
* the Upload Orchestrator (`handleFileUpload` in
  `src/components/dashboard/ReceiptUpload.tsx`), modelled as a function from
  the file list and the success/failure of each network step to an outcome,
  the list of network calls made, and the trace of `setProgress` values.

Monetary values (JavaScript numbers carrying decimal amounts) are modelled
as rationals, the idealised decimal semantics the code intends;
`Math.floor(Math.random() * 10000)` is modelled by a natural parameter
`r < 10000`, so the mock total is the rational `r / 100`.
-/

namespace TransTally

/-- The `processing_status` column: `pending | processing | completed | failed`. -/
inductive Status
  | pending
  | processing
  | completed
  | failed
  deriving DecidableEq, Repr

/-- One entry of `extracted_data.items`: `{ name, price }`, price in dollars. -/
structure Item where
  name : String
  price : ℚ
  deriving DecidableEq, Repr

/-- The `extracted_data` payload: `{ total, date, merchant, items }`.
The `items` field is a (possibly empty) list, structurally always present;
`date` is the string the worker stores (`toISOString().split('T')[0]`). -/
structure ExtractedData where
  total : ℚ
  date : String
  merchant : String
  items : List Item
  deriving DecidableEq, Repr

/-- A calendar date, the information content of the environment clock. -/
structure Date where
  year : Nat
  month : Nat
  day : Nat
  deriving DecidableEq, Repr

/-- Gregorian leap-year rule. -/
def isLeap (y : Nat) : Bool :=
  (y % 4 == 0 && y % 100 != 0) || y % 400 == 0

/-- Number of days of month `m` in year `y`. -/
def daysInMonth (y m : Nat) : Nat :=
  if m = 2 then (if isLeap y then 29 else 28)
  else if m = 4 ∨ m = 6 ∨ m = 9 ∨ m = 11 then 30
  else 31

/-- A valid calendar date: month in 1..12, day in 1..daysInMonth. -/
def Date.valid (d : Date) : Prop :=
  1 ≤ d.month ∧ d.month ≤ 12 ∧ 1 ≤ d.day ∧ d.day ≤ daysInMonth d.year d.month

instance (d : Date) : Decidable d.valid := by
  unfold Date.valid; infer_instance

/-- Two-digit zero-padded decimal rendering (`getMonth`/`getDate` parts of
`toISOString`). -/
def pad2 (n : Nat) : List Char :=
  [Nat.digitChar (n / 10 % 10), Nat.digitChar (n % 10)]

/-- Four-digit zero-padded decimal rendering (year part of `toISOString`,
for years 0..9999). -/
def pad4 (n : Nat) : List Char :=
  [Nat.digitChar (n / 1000 % 10), Nat.digitChar (n / 100 % 10),
   Nat.digitChar (n / 10 % 10), Nat.digitChar (n % 10)]

/-- The date part of `new Date().toISOString()`: the `YYYY-MM-DD` string
obtained by `.split('T')[0]`. -/
def isoDate (d : Date) : String :=
  String.mk (pad4 d.year ++ '-' :: pad2 d.month ++ '-' :: pad2 d.day)

/-- Numeric value of a decimal digit character, `none` when not a digit. -/
def digitVal (c : Char) : Option Nat :=
  if c.isDigit then some (c.toNat - 48) else none

/-- Parser for `YYYY-MM-DD` strings: succeeds exactly on ten-character
strings of four digit chars, a dash, two digit chars, a dash, two digit
chars whose numeric reading is a valid calendar date. -/
def parseIsoDate (s : String) : Option Date :=
  match s.toList with
  | [y1, y2, y3, y4, '-', m1, m2, '-', d1, d2] =>
    match digitVal y1, digitVal y2, digitVal y3, digitVal y4,
          digitVal m1, digitVal m2, digitVal d1, digitVal d2 with
    | some a, some b, some c, some e, some f, some g, some h, some i =>
      let d : Date := ⟨1000 * a + 100 * b + 10 * c + e, 10 * f + g, 10 * h + i⟩
      if d.valid then some d else none
    | _, _, _, _, _, _, _, _ => none
  | _ => none

/-- One row of the `receipts` table, the Receipt Record. -/
structure Receipt where
  file_url : String
  file_name : String
  processing_status : Status
  extracted_data : Option ExtractedData
  deriving DecidableEq, Repr

/-- The `receipts` table: records keyed by their `id`. -/
def Store := String → Option Receipt

/-- The empty table. -/
def emptyStore : Store := fun _ => none

/-- A partial update `.update(fields).eq('id', rid)`: applies `f` to the
record with key `rid` when it exists, touches nothing otherwise. -/
def updateReceipt (s : Store) (rid : String) (f : Receipt → Receipt) : Store :=
  fun k => if k = rid then (s k).map f else s k

/-- `mockExtractedData` from `process-receipt/index.ts`:
`total = Math.floor(Math.random() * 10000) / 100` with the floored draw
modelled by `r`, `date = new Date().toISOString().split('T')[0]` with the
clock modelled by `today`, fixed merchant and the two fixed items. -/
def mockExtractedData (r : Nat) (today : Date) : ExtractedData :=
  { total := (r : ℚ) / 100
    date := isoDate today
    merchant := "Sample Store"
    items := [⟨"Item 1", 1599 / 100⟩, ⟨"Item 2", 2350 / 100⟩] }

/-- Worker response: 401 Unauthorized, 404 Receipt not found,
400 with an error payload when the completed-update errors, or
200 with `{ data }`. -/
inductive WorkerResult
  | unauthorized
  | notFound
  | dbFail
  | ok (data : ExtractedData)
  deriving DecidableEq, Repr

/-- One issued `update` call, as the worker sends it: the processing write,
the single combined completed-plus-payload write, or the failed write. -/
inductive WriteEvent
  | setProcessing (id : String)
  | setCompletedWith (id : String) (d : ExtractedData)
  | setFailed (id : String)
  deriving DecidableEq, Repr

/-- Result of one worker invocation: the HTTP response, the table after the
invocation, and the update calls issued in order. -/
structure ExtractOutcome where
  result : WorkerResult
  store : Store
  writes : List WriteEvent

/-- The serve handler of `process-receipt/index.ts` (`extract(receiptId)`):
check auth; unconditionally write `processing_status = 'processing'` for the
id; select `file_url` and 404 when nothing matches; build
`mockExtractedData`; issue the single update writing
`processing_status = 'completed'` together with `extracted_data`; when that
update errors (`updErr`), issue a best-effort failed write (which itself
errors when `failErr`) and answer 400; otherwise answer 200 with the data. -/
def extract (user : Option String) (receipt_id : String) (r : Nat)
    (today : Date) (updErr failErr : Bool) (s : Store) : ExtractOutcome :=
  match user with
  | none => ⟨.unauthorized, s, []⟩
  | some _ =>
    let s1 := updateReceipt s receipt_id
      (fun rec => { rec with processing_status := .processing })
    match s1 receipt_id with
    | none => ⟨.notFound, s1, [.setProcessing receipt_id]⟩
    | some _ =>
      let payload := mockExtractedData r today
      if updErr then
        let s2 := if failErr then s1 else
          updateReceipt s1 receipt_id
            (fun rec => { rec with processing_status := .failed })
        ⟨.dbFail, s2,
          [.setProcessing receipt_id, .setCompletedWith receipt_id payload,
           .setFailed receipt_id]⟩
      else
        let s2 := updateReceipt s1 receipt_id
          (fun rec => { rec with processing_status := .completed,
                                 extracted_data := some payload })
        ⟨.ok payload, s2,
          [.setProcessing receipt_id, .setCompletedWith receipt_id payload]⟩

/-- The orchestrator's `insert` creating a fresh Receipt Record with
`processing_status: 'pending'` and no `extracted_data` (primary keys are
unique, so an occupied id is never overwritten). -/
def createReceiptRecordDb (s : Store) (id url name : String) : Store :=
  fun k => if k = id then
    (if (s id).isSome then s k else some ⟨url, name, .pending, none⟩)
  else s k

/-- One pipeline operation on the `receipts` table: the orchestrator
creating a record, or one invocation of the Extraction Worker. -/
inductive Op
  | create (id url name : String)
  | worker (user : Option String) (id : String) (r : Nat) (today : Date)
      (updErr failErr : Bool)

/-- Effect of one operation on the table. -/
def applyOp (s : Store) : Op → Store
  | .create id url name => createReceiptRecordDb s id url name
  | .worker user id r today updErr failErr =>
      (extract user id r today updErr failErr s).store

/-- Effect of a sequence of operations, first operation first. -/
def run (ops : List Op) (s : Store) : Store :=
  ops.foldl applyOp s

/-- A file as the orchestrator sees it: name, declared media type, size in
bytes. -/
structure UFile where
  name : String
  mediaType : String
  size : Nat
  deriving DecidableEq, Repr

/-- The allow-list of `handleFileUpload` (`validTypes`). -/
def validTypes : List String :=
  ["image/jpeg", "image/png", "image/webp", "application/pdf"]

/-- One network call made by the orchestrator: the storage upload, the
record insert, or the worker invocation. -/
inductive NetCall
  | storageUpload
  | insertRecord
  | invokeWorker
  deriving DecidableEq, Repr

/-- Outcome `handleFileUpload` surfaces: silent return on no file, the two
validation toasts, the generic catch toast, or success with the extracted
data. -/
inductive UploadOutcome
  | noFile
  | invalidType
  | tooLarge
  | err
  | success (d : ExtractedData)
  deriving DecidableEq, Repr

/-- One orchestrator run: the surfaced outcome, the network calls made in
order, and the successive values passed to `setProgress` in order. -/
structure UploadRun where
  outcome : UploadOutcome
  calls : List NetCall
  progressTrace : List Nat
  deriving DecidableEq, Repr

/-- `handleFileUpload` of `ReceiptUpload.tsx`: return silently on an empty
file list; reject a media type outside `validTypes`, then a size over
`10 * 1024 * 1024` bytes, both before any network call or progress update;
then `setProgress(10)`, upload (`uploadErr` models a storage failure),
`setProgress(30)`, insert the record (`recordErr`), `setProgress(50)`,
invoke the worker (`invokeErr`; `workerData` is its response body on
success), `setProgress(100)`; every thrown error lands in the catch block,
and the `finally` block ends every run past validation with
`setProgress(0)`. -/
def handleFileUpload (files : List UFile)
    (uploadErr recordErr invokeErr : Bool)
    (workerData : ExtractedData) : UploadRun :=
  match files with
  | [] => ⟨.noFile, [], []⟩
  | file :: _ =>
    if validTypes.contains file.mediaType = false then
      ⟨.invalidType, [], []⟩
    else if 10 * 1024 * 1024 < file.size then
      ⟨.tooLarge, [], []⟩
    else if uploadErr then
      ⟨.err, [.storageUpload], [10, 0]⟩
    else if recordErr then
      ⟨.err, [.storageUpload, .insertRecord], [10, 30, 0]⟩
    else if invokeErr then
      ⟨.err, [.storageUpload, .insertRecord, .invokeWorker],
        [10, 30, 50, 0]⟩
    else
      ⟨.success workerData, [.storageUpload, .insertRecord, .invokeWorker],
        [10, 30, 50, 100, 0]⟩

/-! Helper lemmas. -/

theorem updateReceipt_self (s : Store) (id : String) (f : Receipt → Receipt) :
    updateReceipt s id f id = (s id).map f := by
  simp [updateReceipt]

theorem updateReceipt_of_none (s : Store) (id : String) (f : Receipt → Receipt)
    (h : s id = none) : updateReceipt s id f = s := by
  funext k
  unfold updateReceipt
  by_cases hk : k = id
  · subst hk; simp [h]
  · simp [hk]

theorem extract_result_ok (u id : String) (r : Nat) (today : Date)
    (failErr : Bool) (s : Store) (h : (s id).isSome) :
    (extract (some u) id r today false failErr s).result =
      .ok (mockExtractedData r today) := by
  obtain ⟨rec, hrec⟩ := Option.isSome_iff_exists.mp h
  simp [extract, updateReceipt, hrec]

/-! Claim theorems. -/

/-- C6: a request to the Extraction Worker that carries no valid
authenticated identity is rejected with 401 Unauthorized, the table is
returned unchanged, and no update call is issued. -/
theorem extract_unauthenticated (receipt_id : String) (r : Nat) (today : Date)
    (updErr failErr : Bool) (s : Store) :
    extract none receipt_id r today updErr failErr s =
      ⟨.unauthorized, s, []⟩ := rfl

/-- C7: invoking the Extraction Worker for a `receiptId` with no Receipt
Record returns NotFound and leaves the table exactly as it was (the
unconditional processing update call is issued but matches no row). -/
theorem extract_not_found (u receipt_id : String) (r : Nat) (today : Date)
    (updErr failErr : Bool) (s : Store) (h : s receipt_id = none) :
    extract (some u) receipt_id r today updErr failErr s =
      ⟨.notFound, s, [.setProcessing receipt_id]⟩ := by
  unfold extract
  rw [updateReceipt_of_none s receipt_id _ h]
  simp [h]

/-- Witness for C7 at the empty table. -/
theorem extract_not_found_witness :
    (emptyStore "missing" = none) ∧
    extract (some "u") "missing" 0 ⟨2026, 10, 12⟩ false false emptyStore =
      ⟨.notFound, emptyStore, [.setProcessing "missing"]⟩ :=
  ⟨rfl, extract_not_found "u" "missing" 0 ⟨2026, 10, 12⟩ false false emptyStore rfl⟩

/-- C4: a file whose media type is outside the allow-list, or whose size
exceeds 10 MiB, is rejected synchronously with the corresponding validation
outcome, no network call is made, and no progress value is ever set. -/
theorem handleFileUpload_invalid (file : UFile) (rest : List UFile)
    (uploadErr recordErr invokeErr : Bool) (workerData : ExtractedData)
    (h : validTypes.contains file.mediaType = false ∨
         10 * 1024 * 1024 < file.size) :
    (handleFileUpload (file :: rest) uploadErr recordErr invokeErr
        workerData).calls = [] ∧
    (handleFileUpload (file :: rest) uploadErr recordErr invokeErr
        workerData).progressTrace = [] ∧
    ((handleFileUpload (file :: rest) uploadErr recordErr invokeErr
        workerData).outcome = .invalidType ∨
     (handleFileUpload (file :: rest) uploadErr recordErr invokeErr
        workerData).outcome = .tooLarge) := by
  unfold handleFileUpload
  by_cases hm : file.mediaType ∈ validTypes
  · rcases h with h | h
    · exact absurd hm (by simpa using h)
    · have h2 : 10485760 < file.size := by omega
      simp [hm, h2]
  · simp [hm]

/-- Witness for C4 at a 100-byte `text/plain` file. -/
theorem handleFileUpload_invalid_witness :
    (validTypes.contains "text/plain" = false ∨
      10 * 1024 * 1024 < 100) ∧
    ((handleFileUpload [⟨"notes.txt", "text/plain", 100⟩] false false false
        ⟨0, "2026-10-12", "Sample Store", []⟩).calls = [] ∧
     (handleFileUpload [⟨"notes.txt", "text/plain", 100⟩] false false false
        ⟨0, "2026-10-12", "Sample Store", []⟩).progressTrace = [] ∧
     ((handleFileUpload [⟨"notes.txt", "text/plain", 100⟩] false false false
        ⟨0, "2026-10-12", "Sample Store", []⟩).outcome = .invalidType ∨
      (handleFileUpload [⟨"notes.txt", "text/plain", 100⟩] false false false
        ⟨0, "2026-10-12", "Sample Store", []⟩).outcome = .tooLarge)) :=
  ⟨Or.inl (by decide),
   handleFileUpload_invalid ⟨"notes.txt", "text/plain", 100⟩ [] false false
     false ⟨0, "2026-10-12", "Sample Store", []⟩ (Or.inl (by decide))⟩

/-- C10: the payload a successful worker invocation returns depends only on
the randomness draw and the clock, never on the looked-up record: two
invocations on any two tables and ids (in particular on records whose
`file_url` differ arbitrarily) with the same draw and date produce the same
response. -/
theorem extract_payload_independent_of_file (u1 u2 id1 id2 : String)
    (r : Nat) (today : Date) (fe1 fe2 : Bool) (s1 s2 : Store)
    (h1 : (s1 id1).isSome) (h2 : (s2 id2).isSome) :
    (extract (some u1) id1 r today false fe1 s1).result =
      (extract (some u2) id2 r today false fe2 s2).result := by
  rw [extract_result_ok u1 id1 r today fe1 s1 h1,
      extract_result_ok u2 id2 r today fe2 s2 h2]

/-- Witness for C10 on two records whose `file_url` differ. -/
theorem extract_payload_independent_of_file_witness :
    (((fun k => if k = "a" then
        some (⟨"https://host/one.jpg", "one.jpg", .pending, none⟩ : Receipt)
      else none : Store) "a").isSome) ∧
    (((fun k => if k = "b" then
        some (⟨"https://host/two.png", "two.png", .pending, none⟩ : Receipt)
      else none : Store) "b").isSome) ∧
    (extract (some "u") "a" 42 ⟨2026, 10, 12⟩ false false
        (fun k => if k = "a" then
          some (⟨"https://host/one.jpg", "one.jpg", .pending, none⟩ : Receipt)
        else none)).result =
      (extract (some "v") "b" 42 ⟨2026, 10, 12⟩ false true
        (fun k => if k = "b" then
          some (⟨"https://host/two.png", "two.png", .pending, none⟩ : Receipt)
        else none)).result :=
  ⟨by decide, by decide,
   extract_payload_independent_of_file "u" "v" "a" "b" 42 ⟨2026, 10, 12⟩
     false true _ _ (by decide) (by decide)⟩

/-- C3: when the record exists and the extractor/database succeeds, the
worker answers 200 with the mock payload, issues exactly one write carrying
`completed` — and that single write carries the payload with it — the stored
record ends completed with exactly that payload, and the total stored in
`extracted_data` equals the total of the returned payload. -/
theorem extract_success_atomic (u id : String) (r : Nat) (today : Date)
    (failErr : Bool) (s : Store) (rec : Receipt) (h : s id = some rec) :
    (extract (some u) id r today false failErr s).result =
      .ok (mockExtractedData r today) ∧
    (extract (some u) id r today false failErr s).writes =
      [.setProcessing id, .setCompletedWith id (mockExtractedData r today)] ∧
    (extract (some u) id r today false failErr s).store id =
      some ⟨rec.file_url, rec.file_name, .completed,
            some (mockExtractedData r today)⟩ ∧
    (((extract (some u) id r today false failErr s).store id).bind
        Receipt.extracted_data).map ExtractedData.total =
      some (mockExtractedData r today).total := by
  obtain ⟨url, name, st, ex⟩ := rec
  refine ⟨?_, ?_, ?_, ?_⟩ <;> simp [extract, updateReceipt, h]

/-- Witness for C3 on a one-record table. -/
theorem extract_success_atomic_witness :
    ((fun k => if k = "a" then
        some (⟨"https://host/one.jpg", "one.jpg", .pending, none⟩ : Receipt)
      else none : Store) "a" =
        some ⟨"https://host/one.jpg", "one.jpg", .pending, none⟩) ∧
    (extract (some "u") "a" 42 ⟨2026, 10, 12⟩ false false
        (fun k => if k = "a" then
          some (⟨"https://host/one.jpg", "one.jpg", .pending, none⟩ : Receipt)
        else none)).result = .ok (mockExtractedData 42 ⟨2026, 10, 12⟩) :=
  ⟨by decide,
   (extract_success_atomic "u" "a" 42 ⟨2026, 10, 12⟩ false
      (fun k => if k = "a" then
        some (⟨"https://host/one.jpg", "one.jpg", .pending, none⟩ : Receipt)
      else none)
      ⟨"https://host/one.jpg", "one.jpg", .pending, none⟩ (by decide)).1⟩

/-- C5: re-invoking the worker on a record already `completed` with payload
`d0` leaves the record with `extracted_data` equal either to exactly the
previous payload `d0` (the 400 path, whose failed write does not touch
`extracted_data`) or to exactly the freshly recomputed full payload (the
success path) — never a mixture and never a partial value. -/
theorem extract_reinvoke_no_partial (u id : String) (r : Nat) (today : Date)
    (updErr failErr : Bool) (s : Store) (rec : Receipt) (d0 : ExtractedData)
    (h : s id = some rec) (hc : rec.processing_status = .completed)
    (hd : rec.extracted_data = some d0) :
    ∃ rec2, (extract (some u) id r today updErr failErr s).store id =
        some rec2 ∧
      (rec2.extracted_data = some d0 ∨
       rec2.extracted_data = some (mockExtractedData r today)) := by
  obtain ⟨url, name, st, ex⟩ := rec
  cases updErr <;> cases failErr <;>
    simp_all [extract, updateReceipt]

/-- Witness for C5: a completed record re-invoked on the 400 path keeps its
previous payload. -/
theorem extract_reinvoke_no_partial_witness :
    ((fun k => if k = "a" then
        some (⟨"u1", "f1", .completed,
               some (mockExtractedData 3 ⟨2026, 1, 2⟩)⟩ : Receipt)
      else none : Store) "a" =
        some ⟨"u1", "f1", .completed,
              some (mockExtractedData 3 ⟨2026, 1, 2⟩)⟩) ∧
    ∃ rec2, (extract (some "u") "a" 5 ⟨2026, 1, 3⟩ true false
        (fun k => if k = "a" then
          some (⟨"u1", "f1", .completed,
                 some (mockExtractedData 3 ⟨2026, 1, 2⟩)⟩ : Receipt)
        else none)).store "a" = some rec2 ∧
      (rec2.extracted_data = some (mockExtractedData 3 ⟨2026, 1, 2⟩) ∨
       rec2.extracted_data = some (mockExtractedData 5 ⟨2026, 1, 3⟩)) :=
  ⟨rfl,
   extract_reinvoke_no_partial "u" "a" 5 ⟨2026, 1, 3⟩ true false
     (fun k => if k = "a" then
       some (⟨"u1", "f1", .completed,
              some (mockExtractedData 3 ⟨2026, 1, 2⟩)⟩ : Receipt)
     else none)
     ⟨"u1", "f1", .completed, some (mockExtractedData 3 ⟨2026, 1, 2⟩)⟩
     (mockExtractedData 3 ⟨2026, 1, 2⟩) rfl rfl rfl⟩

theorem digitVal_digitChar (k : Nat) (h : k < 10) :
    digitVal (Nat.digitChar k) = some k := by
  interval_cases k <;> rfl

theorem daysInMonth_le (y m : Nat) : daysInMonth y m ≤ 31 := by
  unfold daysInMonth
  split
  · split <;> omega
  · split <;> omega

theorem parseIsoDate_isoDate (d : Date) (hv : d.valid) (hy : d.year ≤ 9999) :
    parseIsoDate (isoDate d) = some d := by
  obtain ⟨y, m, day⟩ := d
  obtain ⟨h1, h2, h3, h4⟩ := hv
  have hy9 : y ≤ 9999 := hy
  have hm99 : m ≤ 99 := le_trans h2 (by omega)
  have hd99 : day ≤ 99 := le_trans h4 (le_trans (daysInMonth_le y m) (by omega))
  have l1 : y / 1000 % 10 < 10 := Nat.mod_lt _ (by omega)
  have l2 : y / 100 % 10 < 10 := Nat.mod_lt _ (by omega)
  have l3 : y / 10 % 10 < 10 := Nat.mod_lt _ (by omega)
  have l4 : y % 10 < 10 := Nat.mod_lt _ (by omega)
  have l5 : m / 10 % 10 < 10 := Nat.mod_lt _ (by omega)
  have l6 : m % 10 < 10 := Nat.mod_lt _ (by omega)
  have l7 : day / 10 % 10 < 10 := Nat.mod_lt _ (by omega)
  have l8 : day % 10 < 10 := Nat.mod_lt _ (by omega)
  simp only [parseIsoDate, isoDate, pad4, pad2, String.toList, List.cons_append,
    List.nil_append]
  rw [digitVal_digitChar _ l1, digitVal_digitChar _ l2, digitVal_digitChar _ l3,
    digitVal_digitChar _ l4, digitVal_digitChar _ l5, digitVal_digitChar _ l6,
    digitVal_digitChar _ l7, digitVal_digitChar _ l8]
  have ey : 1000 * (y / 1000 % 10) + 100 * (y / 100 % 10) + 10 * (y / 10 % 10)
      + y % 10 = y := by omega
  have em : 10 * (m / 10 % 10) + m % 10 = m := by omega
  have ed : 10 * (day / 10 % 10) + day % 10 = day := by omega
  simp only [ey, em, ed]
  rw [if_pos ⟨h1, h2, h3, h4⟩]

/-- C8: every payload the worker produces is well-formed: `total` is a
non-negative rational expressible exactly in cents (multiplying by 100
yields an integer), the stored `date` string parses back as the (valid)
environment calendar date in `YYYY-MM-DD` form, the `items` field is
present — here the two fixed entries — and every item price is
non-negative. -/
theorem mockExtractedData_wellformed (r : Nat) (today : Date)
    (hr : r < 10000) (hv : today.valid) (hy : today.year ≤ 9999) :
    0 ≤ (mockExtractedData r today).total ∧
    ((mockExtractedData r today).total * 100).den = 1 ∧
    parseIsoDate (mockExtractedData r today).date = some today ∧
    (mockExtractedData r today).items =
      [⟨"Item 1", 1599 / 100⟩, ⟨"Item 2", 2350 / 100⟩] ∧
    (∀ it ∈ (mockExtractedData r today).items, 0 ≤ it.price) := by
  refine ⟨?_, ?_, ?_, rfl, ?_⟩
  · unfold mockExtractedData
    positivity
  · show ((r : ℚ) / 100 * 100).den = 1
    rw [div_mul_cancel₀ _ (by norm_num : (100 : ℚ) ≠ 0)]
    exact Rat.den_natCast r
  · exact parseIsoDate_isoDate today hv hy
  · intro it hit
    simp only [mockExtractedData, List.mem_cons, List.mem_singleton] at hit
    rcases hit with h | h | h
    · rw [h]; norm_num
    · rw [h]; norm_num
    · cases h

/-- Witness for C8 at draw 4237 and the clock date 2026-10-12. -/
theorem mockExtractedData_wellformed_witness :
    (4237 < 10000 ∧ (⟨2026, 10, 12⟩ : Date).valid ∧
      (⟨2026, 10, 12⟩ : Date).year ≤ 9999) ∧
    parseIsoDate (mockExtractedData 4237 ⟨2026, 10, 12⟩).date =
      some ⟨2026, 10, 12⟩ :=
  ⟨⟨by decide, by decide, by decide⟩,
   (mockExtractedData_wellformed 4237 ⟨2026, 10, 12⟩ (by decide) (by decide)
     (by decide)).2.2.1⟩

/-- C1 counterexample: the worker's processing write is unconditional, so
invoking it on a record already in the terminal status `failed` moves the
record out of that status — here all the way to `completed`. -/
theorem extract_moves_record_out_of_terminal :
    ((fun k => if k = "a" then
        some (⟨"u1", "f1", .failed, none⟩ : Receipt)
      else none : Store) "a").map Receipt.processing_status =
        some .failed ∧
    ((extract (some "u") "a" 7 ⟨2026, 10, 12⟩ false false
        (fun k => if k = "a" then
          some (⟨"u1", "f1", .failed, none⟩ : Receipt)
        else none)).store "a").map Receipt.processing_status =
      some .completed :=
  ⟨rfl, rfl⟩

/-- C1 amended: a single authenticated invocation on an existing record in
status `pending` (with the best-effort failed write succeeding) drives the
status exactly along pending → processing → completed on the success path,
and pending → processing → failed on the db-error path — the issued writes
are exactly the processing write followed by the terminal write; terminal
states are however not absorbing across invocations, because the processing
write is unconditional. -/
theorem extract_first_invocation_path (u id : String) (r : Nat) (today : Date)
    (updErr : Bool) (s : Store) (rec : Receipt)
    (h : s id = some rec) (hp : rec.processing_status = .pending) :
    (updErr = false →
      (extract (some u) id r today updErr false s).writes =
        [.setProcessing id, .setCompletedWith id (mockExtractedData r today)] ∧
      ((extract (some u) id r today updErr false s).store id).map
        Receipt.processing_status = some .completed) ∧
    (updErr = true →
      (extract (some u) id r today updErr false s).writes =
        [.setProcessing id, .setCompletedWith id (mockExtractedData r today),
         .setFailed id] ∧
      ((extract (some u) id r today updErr false s).store id).map
        Receipt.processing_status = some .failed) := by
  obtain ⟨url, name, st, ex⟩ := rec
  cases updErr <;> simp_all [extract, updateReceipt]

/-- Witness for C1 (amended) on a fresh pending record, success path. -/
theorem extract_first_invocation_path_witness :
    ((fun k => if k = "a" then
        some (⟨"u1", "f1", .pending, none⟩ : Receipt)
      else none : Store) "a" = some ⟨"u1", "f1", .pending, none⟩ ∧
     (⟨"u1", "f1", .pending, none⟩ : Receipt).processing_status =
       .pending) ∧
    ((extract (some "u") "a" 7 ⟨2026, 10, 12⟩ false false
        (fun k => if k = "a" then
          some (⟨"u1", "f1", .pending, none⟩ : Receipt)
        else none)).writes =
      [.setProcessing "a",
       .setCompletedWith "a" (mockExtractedData 7 ⟨2026, 10, 12⟩)] ∧
     ((extract (some "u") "a" 7 ⟨2026, 10, 12⟩ false false
        (fun k => if k = "a" then
          some (⟨"u1", "f1", .pending, none⟩ : Receipt)
        else none)).store "a").map Receipt.processing_status =
       some .completed) :=
  ⟨⟨rfl, rfl⟩,
   (extract_first_invocation_path "u" "a" 7 ⟨2026, 10, 12⟩ false
      (fun k => if k = "a" then
        some (⟨"u1", "f1", .pending, none⟩ : Receipt)
      else none)
      ⟨"u1", "f1", .pending, none⟩ rfl rfl).1 rfl⟩

/-- A table in which every record in status `completed` carries an
extracted payload. -/
def completedHasData (s : Store) : Prop :=
  ∀ id rec, s id = some rec → rec.processing_status = .completed →
    rec.extracted_data ≠ none

theorem completedHasData_empty : completedHasData emptyStore := by
  intro id rec h
  cases h

theorem completedHasData_updateReceipt (s : Store) (id : String)
    (f : Receipt → Receipt) (h : completedHasData s)
    (hf : ∀ rec, (f rec).processing_status = .completed →
      (f rec).extracted_data ≠ none) :
    completedHasData (updateReceipt s id f) := by
  intro k rec hk hc
  unfold updateReceipt at hk
  by_cases hki : k = id
  · subst hki
    simp only [if_pos rfl] at hk
    cases hs : s k with
    | none => rw [hs] at hk; cases hk
    | some rec0 =>
      rw [hs] at hk
      have hk2 : f rec0 = rec := by simpa using hk
      subst hk2
      exact hf rec0 hc
  · simp only [if_neg hki] at hk
    exact h k rec hk hc

theorem completedHasData_extract (user : Option String) (id : String)
    (r : Nat) (today : Date) (updErr failErr : Bool) (s : Store)
    (h : completedHasData s) :
    completedHasData (extract user id r today updErr failErr s).store := by
  cases user with
  | none => exact h
  | some u =>
    have h1 : completedHasData (updateReceipt s id
        (fun rec => { rec with processing_status := .processing })) :=
      completedHasData_updateReceipt s id _ h (by intro rec hc; cases hc)
    simp only [extract]
    cases hs1 : updateReceipt s id
        (fun rec => { rec with processing_status := .processing }) id with
    | none => simpa [hs1] using h1
    | some rec0 =>
      cases updErr with
      | false =>
        simp only [hs1, Bool.false_eq_true, if_false]
        exact completedHasData_updateReceipt _ id _ h1
          (by intro rec hc; simp)
      | true =>
        cases failErr with
        | false =>
          simp only [hs1, if_true]
          exact completedHasData_updateReceipt _ id _ h1
            (by intro rec hc; cases hc)
        | true =>
          simpa [hs1] using h1

theorem completedHasData_applyOp (s : Store) (op : Op)
    (h : completedHasData s) : completedHasData (applyOp s op) := by
  cases op with
  | create id url name =>
    intro k rec hk hc
    unfold applyOp createReceiptRecordDb at hk
    by_cases hki : k = id
    · subst hki
      simp only [if_pos rfl] at hk
      by_cases hocc : (s k).isSome
      · rw [if_pos hocc] at hk
        exact h k rec hk hc
      · rw [if_neg hocc] at hk
        cases hk
        cases hc
    · simp only [if_neg hki] at hk
      exact h k rec hk hc
  | worker user id r today updErr failErr =>
    exact completedHasData_extract user id r today updErr failErr s h

theorem completedHasData_run (ops : List Op) (s : Store)
    (h : completedHasData s) : completedHasData (run ops s) := by
  induction ops generalizing s with
  | nil => exact h
  | cons op rest ih => exact ih (applyOp s op) (completedHasData_applyOp s op h)

/-- C2 amended: after any sequence of orchestrator and worker operations
starting from the empty table, every record in status `completed` carries
the full extracted payload; the converse direction of the claimed iff fails —
`extracted_data` is never cleared, so a record can sit in `processing` or
`failed` while still carrying the payload of an earlier completed run (see
counterexample). -/
theorem run_completed_has_data (ops : List Op) :
    completedHasData (run ops emptyStore) :=
  completedHasData_run ops emptyStore completedHasData_empty

/-- Witness for C2 (amended): create, then one successful invocation; the
resulting completed record carries its payload. -/
theorem run_completed_has_data_witness :
    (run [Op.create "a" "u1" "f1",
          Op.worker (some "x") "a" 3 ⟨2026, 1, 2⟩ false false]
        emptyStore "a" =
      some ⟨"u1", "f1", .completed, some (mockExtractedData 3 ⟨2026, 1, 2⟩)⟩ ∧
     (⟨"u1", "f1", .completed,
       some (mockExtractedData 3 ⟨2026, 1, 2⟩)⟩ : Receipt).processing_status =
       .completed) ∧
    (⟨"u1", "f1", .completed,
      some (mockExtractedData 3 ⟨2026, 1, 2⟩)⟩ : Receipt).extracted_data ≠
      none :=
  ⟨⟨rfl, rfl⟩,
   run_completed_has_data
     [Op.create "a" "u1" "f1",
      Op.worker (some "x") "a" 3 ⟨2026, 1, 2⟩ false false] "a"
     ⟨"u1", "f1", .completed, some (mockExtractedData 3 ⟨2026, 1, 2⟩)⟩
     rfl rfl⟩

/-- C2 counterexample: complete a record, then re-invoke the worker on a
run whose completed-update errors; the record ends in status `failed`
while still carrying the payload of the first run — `extracted_data`
present without `status == completed`. -/
theorem extractedData_present_without_completed :
    run [Op.create "a" "u1" "f1",
         Op.worker (some "x") "a" 3 ⟨2026, 1, 2⟩ false false,
         Op.worker (some "x") "a" 5 ⟨2026, 1, 3⟩ true false]
        emptyStore "a" =
      some ⟨"u1", "f1", .failed, some (mockExtractedData 3 ⟨2026, 1, 2⟩)⟩ ∧
    Status.failed ≠ Status.completed :=
  ⟨rfl, by decide⟩

/-- C9 amended: during one run the `setProgress` values before the final
reset are non-decreasing through the checkpoints 10, 30, 50, 100, and every
run that passes validation ends with `setProgress(0)` — the `finally` block
resets the indicator on success as well as on failure, so it does not
remain at 100 on success (see counterexample). -/
theorem handleFileUpload_progress (files : List UFile)
    (uploadErr recordErr invokeErr : Bool) (workerData : ExtractedData) :
    List.Chain' (· ≤ ·)
      (handleFileUpload files uploadErr recordErr invokeErr
        workerData).progressTrace.dropLast ∧
    ((handleFileUpload files uploadErr recordErr invokeErr
        workerData).progressTrace = [] ∨
     (handleFileUpload files uploadErr recordErr invokeErr
        workerData).progressTrace.getLast? = some 0) ∧
    (handleFileUpload files uploadErr recordErr invokeErr
        workerData).progressTrace ∈
      [[], [10, 0], [10, 30, 0], [10, 30, 50, 0], [10, 30, 50, 100, 0]] := by
  cases files with
  | nil =>
    refine ⟨?_, Or.inl rfl, ?_⟩ <;> simp [handleFileUpload]
  | cons f rest =>
    simp only [handleFileUpload]
    split_ifs <;>
      exact ⟨by simp [List.dropLast],
        by first | exact Or.inl rfl | exact Or.inr rfl, by simp⟩

/-- C9 counterexample: a fully successful run (a 2 MiB JPEG, every step
succeeding) sets the progress values 10, 30, 50, 100 and then 0 — the last
value set is 0, not 100, so the indicator does not remain at 100 on
success. -/
theorem progress_reset_on_success :
    (handleFileUpload [⟨"r.jpg", "image/jpeg", 2097152⟩] false false false
        ⟨0, "2026-10-12", "Sample Store", []⟩).outcome =
      .success ⟨0, "2026-10-12", "Sample Store", []⟩ ∧
    (handleFileUpload [⟨"r.jpg", "image/jpeg", 2097152⟩] false false false
        ⟨0, "2026-10-12", "Sample Store", []⟩).progressTrace =
      [10, 30, 50, 100, 0] ∧
    (handleFileUpload [⟨"r.jpg", "image/jpeg", 2097152⟩] false false false
        ⟨0, "2026-10-12", "Sample Store", []⟩).progressTrace.getLast? =
      some 0 :=
  ⟨rfl, rfl, rfl⟩

end TransTally
